import Mathlib

deriving instance DecidableEq for Except

/-!
Shallow embedding of `src/etl_pipeline.py`, a batch ETL pipeline:
`extract_data` reads a CSV into a table of raw transactions,
`transform_data` cleans, filters and aggregates them into a per-product
revenue summary, and `load_data` writes the summary into a SQLite table
with replace semantics.  `main` orchestrates the three stages.

Modelling choices:
* a pandas DataFrame of transactions is a `List RawTransaction`; every CSV
  cell may be empty, so every field is an `Option`;
* the `amount` column may contain non-numeric text (pandas would then give
  the column `object` dtype), so an amount cell is a `Cell`: either a
  numeric value (modelled exactly as `ℚ`) or a leftover string;
* exceptions are modelled with `Except`/sum types; the distinct `except`
  branches of the Python code become distinct constructors;
* the filesystem and the SQLite store are explicit parameters, with a
  fault descriptor saying which store operations raise.
-/

namespace ETL

/-- An entry of the `amount` column: numeric, or non-numeric leftover text
(pandas keeps unparsable cells as strings in an `object`-dtype column). -/
inductive Cell where
  | num (q : ℚ)
  | str (s : String)
deriving DecidableEq

/-- One row of the input CSV (`transaction_id, product_id, date, amount,
category`).  Any cell may be empty, which pandas reads as NaN/None. -/
structure RawTransaction where
  transaction_id : Option Int
  product_id : Option String
  date : Option String
  amount : Option Cell
  category : Option String
deriving DecidableEq

/-- A calendar date, the result of `pd.to_datetime` on a date string. -/
structure CalDate where
  year : Nat
  month : Nat
  day : Nat
deriving DecidableEq

/-- A record that survived filtering and type normalization (lines 44-53):
all fields present, `date` a parsed calendar date, `amount` numeric. -/
structure CleanTransaction where
  transaction_id : Int
  product_id : String
  date : CalDate
  amount : ℚ
  category : String
deriving DecidableEq

/-- One output row of the transform (lines 56-63): a product, its summed
revenue, and the single run timestamp attached to every row. -/
structure ProductRevenueSummary where
  product_id : String
  total_revenue_usd : ℚ
  processed_at : Nat
deriving DecidableEq

/-- Errors the transform stage can raise.  `typeError` models the Python
`TypeError` raised by comparing a string amount with `0` at line 48;
`coercionError` models a `ValueError` from `pd.to_datetime`/`pd.to_numeric`
at lines 52-53. -/
inductive PipelineError where
  | typeError
  | coercionError
deriving DecidableEq

/-- A row has no missing value in any of its five columns. -/
def rowComplete (r : RawTransaction) : Bool :=
  r.transaction_id.isSome && r.product_id.isSome && r.date.isSome &&
    r.amount.isSome && r.category.isSome

/-- Line 45, `df.dropna()`: drop every row that has a missing value in ANY
column (pandas `dropna` with no `subset` argument). -/
def dropna (df : List RawTransaction) : List RawTransaction :=
  df.filter rowComplete

/-- Line 48, `df_cleaned[df_cleaned['amount'] > 0]`: keep rows whose amount
compares greater than zero.  A missing amount (NaN) compares `False`; a
string amount makes the comparison raise `TypeError`, which aborts the
whole transform (pandas evaluates the comparison column-wise). -/
def signFilter : List RawTransaction → Except PipelineError (List RawTransaction)
  | [] => .ok []
  | r :: rs =>
    match r.amount with
    | some (.str _) => .error .typeError
    | some (.num q) =>
      match signFilter rs with
      | .error e => .error e
      | .ok rest => .ok (if 0 < q then r :: rest else rest)
    | none =>
      match signFilter rs with
      | .error e => .error e
      | .ok rest => .ok rest

/-- Model of `pd.to_datetime` on an ISO `YYYY-MM-DD` string: split on the
dashes, read the three decimal components, require a plausible month and
day.  Returns `none` exactly when the library call would raise. -/
def splitDash : List Char → List (List Char)
  | [] => [[]]
  | c :: cs =>
    let r := splitDash cs
    if c = '-' then [] :: r
    else
      match r with
      | [] => [[c]]
      | g :: gs => (c :: g) :: gs

/-- Decimal value of a nonempty all-digit character group. -/
def digitsVal (cs : List Char) : Option Nat :=
  if cs.isEmpty then none
  else if cs.all (fun c => c.isDigit) then
    some (cs.foldl (fun n c => 10 * n + (c.toNat - 48)) 0)
  else none

/-- Parse a date string; `none` models a `ValueError` from `pd.to_datetime`. -/
def parseCalDate (s : String) : Option CalDate :=
  match splitDash s.data with
  | [y, m, d] =>
    match digitsVal y, digitsVal m, digitsVal d with
    | some yn, some mn, some dn =>
      if 1 ≤ mn && mn ≤ 12 && 1 ≤ dn && dn ≤ 31 then some ⟨yn, mn, dn⟩
      else none
    | _, _, _ => none
  | _ => none

/-- Lines 52-53 for one surviving row: coerce `date` with `to_datetime` and
`amount` with `to_numeric`.  Unparsable input raises (`coercionError`);
nothing is ever dropped.  (A missing field cannot reach this point — the
null filter ran first — and is mapped to the error case as well.) -/
def normRow (r : RawTransaction) : Except PipelineError CleanTransaction :=
  match r.transaction_id, r.product_id, r.date, r.amount, r.category with
  | some tid, some pid, some d, some a, some cat =>
    match parseCalDate d with
    | none => .error .coercionError
    | some cd =>
      match a with
      | .num q => .ok ⟨tid, pid, cd, q, cat⟩
      | .str _ => .error .coercionError
  | _, _, _, _, _ => .error .coercionError

/-- Lines 52-53 over the whole surviving table: normalize every row,
propagating the first failure; the row count is preserved on success. -/
def normalizeAll : List RawTransaction → Except PipelineError (List CleanTransaction)
  | [] => .ok []
  | r :: rs =>
    match normRow r with
    | .error e => .error e
    | .ok c =>
      match normalizeAll rs with
      | .error e => .error e
      | .ok cs => .ok (c :: cs)

/-- Lexicographic (codepoint) order on product ids — the order Python uses
to sort strings, and the order pandas `groupby(sort=True)` sorts keys in. -/
def pidLe (a b : String) : Prop := a.data ≤ b.data

instance : DecidableRel pidLe :=
  fun a b => inferInstanceAs (Decidable (a.data ≤ b.data))

instance : IsTotal String pidLe := ⟨fun a b => le_total a.data b.data⟩

instance : IsTrans String pidLe := ⟨fun _ _ _ h1 h2 => le_trans h1 h2⟩

/-- The distinct product ids of the clean table, in ascending lexicographic
order: the index produced by `groupby('product_id')` (default `sort=True`). -/
def sortedKeys (cl : List CleanTransaction) : List String :=
  List.insertionSort pidLe ((cl.map (fun c => c.product_id)).dedup)

/-- Exact rational addition, written through `Rat.divInt` so that it
evaluates by kernel reduction; proved equal to `(· + ·)` below. -/
def qadd (a b : ℚ) : ℚ :=
  Rat.divInt (a.num * (b.den : ℤ) + b.num * (a.den : ℤ)) ((a.den : ℤ) * (b.den : ℤ))

/-- Exact sum of a list of rationals; proved equal to `List.sum` below. -/
def qsum (l : List ℚ) : ℚ := l.foldr qadd 0

/-- The summed amount of one product's group. -/
def totalFor (cl : List CleanTransaction) (p : String) : ℚ :=
  qsum ((cl.filter (fun c => c.product_id = p)).map (fun c => c.amount))

/-- Lines 56-63: `groupby('product_id')['amount'].sum().reset_index()`
renamed to `total_revenue_usd`, then the single `processed_at` timestamp
(modelled as the abstract instant `now`) attached to every row. -/
def aggregate (now : Nat) (cl : List CleanTransaction) : List ProductRevenueSummary :=
  (sortedKeys cl).map (fun p => ⟨p, totalFor cl p, now⟩)

/-- Lines 39-66, `transform_data`: null filter, sign filter, type
normalization, grouping aggregation, stamping. -/
def transform_data (now : Nat) (df : List RawTransaction) :
    Except PipelineError (List ProductRevenueSummary) :=
  let df_cleaned := dropna df
  match signFilter df_cleaned with
  | .error e => .error e
  | .ok df_filtered =>
    match normalizeAll df_filtered with
    | .error e => .error e
    | .ok clean => .ok (aggregate now clean)

/-- The state of the CSV path on disk: missing, present but unreadable or
unparsable, or readable with its rows in file order. -/
inductive FileState where
  | absent
  | unreadable
  | readable (rows : List RawTransaction)
deriving DecidableEq

/-- The three exits of `extract_data` (lines 25-37): the success path
returning all rows, the `FileNotFoundError` handler (prints "CSV file not
found", returns `None`) and the generic `Exception` handler (prints "An
error occurred during extraction", returns `None`). -/
inductive ExtractResult where
  | ok (rows : List RawTransaction)
  | notFound
  | extractionError
deriving DecidableEq

/-- `extract_data`: `pd.read_csv` succeeds and all rows are returned in
file order, or one of the two handlers reports the failure to the caller. -/
def extract_data : FileState → ExtractResult
  | .absent => .notFound
  | .unreadable => .extractionError
  | .readable rows => .ok rows

/-- Whether `extract_data` returned `None` (both failure handlers do). -/
def ExtractResult.isNone : ExtractResult → Bool
  | .ok _ => false
  | .notFound => true
  | .extractionError => true

/-- Which of the SQLite operations inside `load_data`'s `try` block raise.
`df.to_sql(..., if_exists='replace')` (line 76) on a raw sqlite3
connection is not atomic: it first executes `DROP TABLE` and
`CREATE TABLE` — DDL that the sqlite3 module runs in autocommit mode, so
they are durable immediately — and only the subsequent INSERTs run inside
a transaction that pandas rolls back on error.  The write step can
therefore fail at the create (after the drop committed) or at the insert
(after drop and create committed); `sqlite3.connect` (line 73) and the
verification `pd.read_sql_query` (line 80) can also raise. -/
structure StoreFaults where
  connectFails : Bool
  createFails : Bool
  insertFails : Bool
  verifyFails : Bool
deriving DecidableEq

/-- No store operation raises. -/
def noFaults : StoreFaults := ⟨false, false, false, false⟩

/-- Observable outcome of one `load_data` call: the table contents after
the call (`none` = table absent), whether a connection was opened, whether
it was closed before returning, and whether the `except` branch printed
its error message. -/
structure LoadOutcome where
  table : Option (List ProductRevenueSummary)
  connOpened : Bool
  connClosed : Bool
  errorPrinted : Bool
deriving DecidableEq

/-- Lines 68-89, `load_data`: connect, write with `if_exists='replace'`,
run the verification read, close the connection.  The write is NOT
atomic: a failure at the create step leaves the table absent (the drop
already autocommitted), a failure at the insert step leaves it empty (the
drop and create already autocommitted, the inserts rolled back); only a
connect failure leaves the prior contents.  Any raise lands in the
`except` branch, which prints the error and returns normally —
`conn.close()` (line 86) is inside the `try` after the verification read,
so it is skipped on every failure path. -/
def load_data (df : List ProductRevenueSummary)
    (table : Option (List ProductRevenueSummary)) (f : StoreFaults) :
    LoadOutcome :=
  if f.connectFails then ⟨table, false, false, true⟩
  else if f.createFails then ⟨none, true, false, true⟩
  else if f.insertFails then ⟨some [], true, false, true⟩
  else if f.verifyFails then ⟨some df, true, false, true⟩
  else ⟨some df, true, true, false⟩

/-- The sample data synthesized by `generate_mock_data` (lines 11-23). -/
def mockData : List RawTransaction :=
  [⟨some 1, some "P101", some "2024-09-01", some (.num (Rat.divInt 155 10)), some "Gadget"⟩,
   ⟨some 2, some "P102", some "2024-09-01", some (.num 20), some "Food"⟩,
   ⟨some 3, some "P101", some "2024-09-02", some (.num (Rat.divInt 155 10)), some "Gadget"⟩,
   ⟨some 4, some "P103", some "2024-09-02", some (.num (Rat.divInt 5099 100)), some "Service"⟩,
   ⟨some 5, some "P102", some "2024-09-03", some (.num 20), some "Food"⟩,
   ⟨some 6, some "P104", some "2024-09-03", some (.num (Rat.divInt (-10) 1)), some "Refund"⟩,
   ⟨some 7, some "P101", some "2024-09-04", none, some "Gadget"⟩,
   ⟨some 8, some "P103", some "2024-09-04", some (.num (Rat.divInt 5099 100)), some "Service"⟩,
   ⟨some 9, some "P105", some "2024-09-05", some (.num 5), some "Book"⟩,
   ⟨some 10, some "P102", some "2024-09-05", some (.num 20), some "Food"⟩]

/-- Line 95-96: `main` synthesizes the sample CSV when the path is absent,
so extraction then reads the mock rows. -/
def afterMockGen : FileState → FileState
  | .absent => .readable mockData
  | fs => fs

/-- What one `main` run did: which stages ran, whether the final
"ETL Pipeline Run Complete!" message was printed, whether `main`'s
`except` branch printed "FATAL ERROR", whether `load_data` printed its
error, and the table state after the run. -/
structure RunTrace where
  transformRan : Bool
  loadRan : Bool
  printedComplete : Bool
  fatalPrinted : Bool
  loadErrorPrinted : Bool
  finalTable : Option (List ProductRevenueSummary)
deriving DecidableEq

/-- Lines 91-112, `main`: generate mock data if the CSV is absent, extract
(halt on `None`), transform (a raise is caught by `main`'s `except`, which
prints "FATAL ERROR" and ends the run), load (whose own `except` swallows
failures), then print the completion message. -/
def mainRun (now : Nat) (fs : FileState)
    (table : Option (List ProductRevenueSummary)) (f : StoreFaults) :
    RunTrace :=
  match extract_data (afterMockGen fs) with
  | .notFound => ⟨false, false, false, false, false, table⟩
  | .extractionError => ⟨false, false, false, false, false, table⟩
  | .ok rows =>
    match transform_data now rows with
    | .error _ => ⟨true, false, false, true, false, table⟩
    | .ok summary =>
      let lo := load_data summary table f
      ⟨true, true, true, false, lo.errorPrinted, lo.table⟩

/-- The sign filter's keep-condition on one row, as pandas evaluates it
when the whole amount column is numeric: `amount > 0`, with a missing
amount (NaN) comparing `False`. -/
def keepAmount (r : RawTransaction) : Bool :=
  match r.amount with
  | some (.num q) => decide (0 < q)
  | _ => false

/-- The numeric value of a row's amount cell (0 for the impossible cases;
only ever applied to rows whose amount is a numeric cell). -/
def rawAmountQ (r : RawTransaction) : ℚ :=
  match r.amount with
  | some (.num q) => q
  | _ => 0

/-- How a surviving raw row corresponds to its normalized clean row. -/
def normRel (r : RawTransaction) (c : CleanTransaction) : Prop :=
  r.product_id = some c.product_id ∧ r.amount = some (.num c.amount)

/-- Claim C3 as stated: the transform's first filtering step drops exactly
the records whose `amount` is missing, keeping records that are null only
in other fields. -/
def nullFilterByAmountOnly : Prop :=
  ∀ df : List RawTransaction, dropna df = df.filter (fun r => r.amount.isSome)

/-- Claim C5 as stated, at the run level: a load failure is terminal — a
run whose load stage reported an error does not end with the
"Run Complete!" message as if it had succeeded. -/
def loadFailureTerminal : Prop :=
  ∀ (now : Nat) (fs : FileState) (table : Option (List ProductRevenueSummary))
    (f : StoreFaults),
    (mainRun now fs table f).loadErrorPrinted = true →
    (mainRun now fs table f).printedComplete = false

/-- Claim C6 as stated: a non-null, non-numeric amount that the null
filter does not drop makes the transform fail with the coercion error of
the type-normalization step. -/
def coercionFailureAtNormalization : Prop :=
  ∀ (now : Nat) (df : List RawTransaction),
    (∃ r ∈ dropna df, ∃ s, r.amount = some (Cell.str s)) →
    transform_data now df = .error .coercionError

/-- A row that is complete except for its `category` cell, with a positive
numeric amount: the two null-filter readings disagree on it. -/
def nullCategoryRow : RawTransaction :=
  ⟨some 1, some "P1", some "2024-09-01", some (.num 5), none⟩

/-- A single complete row whose amount is non-numeric text. -/
def strAmountRow : RawTransaction :=
  ⟨some 1, some "P1", some "2024-09-01", some (.str "abc"), some "X"⟩

/-- Input whose records all have a null, negative or zero amount. -/
def allInvalidData : List RawTransaction :=
  [⟨some 1, some "P1", some "2024-09-01", none, some "A"⟩,
   ⟨some 2, some "P2", some "2024-09-02", some (.num (Rat.divInt (-3) 1)), some "B"⟩,
   ⟨some 3, some "P3", some "2024-09-03", some (.num 0), some "C"⟩]

/-- Input whose products appear in descending order, to separate
first-appearance order from sorted order. -/
def descOrderData : List RawTransaction :=
  [⟨some 1, some "P2", some "2024-09-01", some (.num 7), some "A"⟩,
   ⟨some 2, some "P1", some "2024-09-02", some (.num 3), some "B"⟩]

/-- A small summary used to exercise the loader. -/
def demoSummary : List ProductRevenueSummary := [⟨"P1", 5, 0⟩]

/-- The rows of `mockData` that survive both filters (all rows except the
negative-amount row 6 and the missing-amount row 7). -/
def mockFiltered : List RawTransaction :=
  [⟨some 1, some "P101", some "2024-09-01", some (.num (Rat.divInt 155 10)), some "Gadget"⟩,
   ⟨some 2, some "P102", some "2024-09-01", some (.num 20), some "Food"⟩,
   ⟨some 3, some "P101", some "2024-09-02", some (.num (Rat.divInt 155 10)), some "Gadget"⟩,
   ⟨some 4, some "P103", some "2024-09-02", some (.num (Rat.divInt 5099 100)), some "Service"⟩,
   ⟨some 5, some "P102", some "2024-09-03", some (.num 20), some "Food"⟩,
   ⟨some 8, some "P103", some "2024-09-04", some (.num (Rat.divInt 5099 100)), some "Service"⟩,
   ⟨some 9, some "P105", some "2024-09-05", some (.num 5), some "Book"⟩,
   ⟨some 10, some "P102", some "2024-09-05", some (.num 20), some "Food"⟩]

/-- The summary the transform produces from `mockData` (timestamp 0). -/
def mockSummary : List ProductRevenueSummary :=
  [⟨"P101", 31, 0⟩, ⟨"P102", 60, 0⟩, ⟨"P103", Rat.divInt 5099 50, 0⟩, ⟨"P105", 5, 0⟩]

theorem qadd_eq (a b : ℚ) : qadd a b = a + b := by
  rw [qadd, ← Rat.num_divInt_den a, ← Rat.num_divInt_den b, Rat.divInt_add_divInt]
  · simp [Rat.num_divInt_den]
  · exact Int.natCast_ne_zero.mpr a.den_nz
  · exact Int.natCast_ne_zero.mpr b.den_nz

theorem qsum_eq (l : List ℚ) : qsum l = l.sum := by
  induction l with
  | nil => rfl
  | cons a l ih => simp [qsum, List.foldr_cons, qadd_eq, List.sum_cons] at ih ⊢; rw [ih]

theorem signFilter_ok {l m : List RawTransaction}
    (h : signFilter l = .ok m) : m = l.filter keepAmount := by
  induction l generalizing m with
  | nil => simp [signFilter] at h; simp [h]
  | cons r rs ih =>
    rcases hr : r.amount with _ | c
    · rw [signFilter, hr] at h
      rcases hs : signFilter rs with e | rest <;> rw [hs] at h
      · exact absurd h (by simp)
      · simp at h
        simp [List.filter_cons, keepAmount, hr, ← h, ih hs]
    · rcases c with q | s
      · rw [signFilter, hr] at h
        rcases hs : signFilter rs with e | rest <;> rw [hs] at h
        · exact absurd h (by simp)
        · simp at h
          by_cases hq : 0 < q
          · simp [hq] at h
            simp [List.filter_cons, keepAmount, hr, hq, ← h, ih hs]
          · simp [hq] at h
            simp [List.filter_cons, keepAmount, hr, hq, ← h, ih hs]
      · rw [signFilter, hr] at h
        exact absurd h (by simp)

theorem signFilter_str_error {l : List RawTransaction}
    (h : ∃ r ∈ l, ∃ s, r.amount = some (Cell.str s)) :
    signFilter l = .error .typeError := by
  induction l with
  | nil => simp at h
  | cons r rs ih =>
    rcases h with ⟨r', hr', s, hs⟩
    rcases List.mem_cons.mp hr' with h1 | h1
    · subst h1; rw [signFilter, hs]
    · have herr := ih ⟨r', h1, s, hs⟩
      rcases hr : r.amount with _ | c
      · rw [signFilter, hr, herr]
      · rcases c with q | s'
        · rw [signFilter, hr, herr]
        · rw [signFilter, hr]

theorem normRow_ok {r : RawTransaction} {c : CleanTransaction}
    (h : normRow r = .ok c) : normRel r c := by
  rcases r with ⟨tid, pid, d, a, cat⟩
  cases tid <;> cases pid <;> cases d <;> cases a <;> cases cat <;>
    simp_all only [normRow] <;> try exact absurd h (by simp)
  rename_i pid d a cat
  rcases hp : parseCalDate d with _ | cd <;> rw [hp] at h
  · exact absurd h (by simp)
  · rcases a with q | s
    · dsimp only at h
      have hc := (Except.ok.inj h).symm
      subst hc
      exact ⟨rfl, rfl⟩
    · exact absurd h (by simp)

theorem normalizeAll_ok {l : List RawTransaction} {cl : List CleanTransaction}
    (h : normalizeAll l = .ok cl) : List.Forall₂ normRel l cl := by
  induction l generalizing cl with
  | nil => simp [normalizeAll] at h; simp [h]
  | cons r rs ih =>
    rw [normalizeAll] at h
    rcases hr : normRow r with e | c <;> rw [hr] at h
    · exact absurd h (by simp)
    · rcases hs : normalizeAll rs with e | cs <;> rw [hs] at h
      · exact absurd h (by simp)
      · simp at h
        rw [← h]
        exact List.Forall₂.cons (normRow_ok hr) (ih hs)

theorem transform_ok {now : Nat} {df : List RawTransaction}
    {out : List ProductRevenueSummary}
    (h : transform_data now df = .ok out) :
    ∃ fr cl, signFilter (dropna df) = .ok fr ∧ normalizeAll fr = .ok cl ∧
      out = aggregate now cl := by
  rw [transform_data] at h
  rcases h1 : signFilter (dropna df) with e | fr <;> rw [h1] at h <;> dsimp only at h
  · simp at h
  · rcases h2 : normalizeAll fr with e | cl <;> rw [h2] at h <;> dsimp only at h
    · simp at h
    · exact ⟨fr, cl, rfl, h2, (Except.ok.inj h).symm⟩

theorem sortedKeys_nodup (cl : List CleanTransaction) : (sortedKeys cl).Nodup :=
  ((List.perm_insertionSort pidLe _).nodup_iff).mpr (List.nodup_dedup _)

theorem mem_sortedKeys {p : String} {cl : List CleanTransaction} :
    p ∈ sortedKeys cl ↔ p ∈ cl.map (fun c => c.product_id) := by
  rw [sortedKeys, (List.perm_insertionSort pidLe _).mem_iff, List.mem_dedup]

theorem sortedKeys_sorted (cl : List CleanTransaction) :
    List.Pairwise pidLe (sortedKeys cl) :=
  List.sorted_insertionSort pidLe _

theorem aggregate_keys (now : Nat) (cl : List CleanTransaction) :
    (aggregate now cl).map (fun row => row.product_id) = sortedKeys cl := by
  unfold aggregate
  generalize sortedKeys cl = l
  induction l with
  | nil => rfl
  | cons a l ih => simpa using ih

theorem forall₂_pid_mem {fr : List RawTransaction} {cl : List CleanTransaction}
    (h : List.Forall₂ normRel fr cl) (p : String) :
    some p ∈ fr.map (fun r => r.product_id) ↔ p ∈ cl.map (fun c => c.product_id) := by
  induction h with
  | nil => simp
  | cons hrc hrest ih => simp [List.map_cons, List.mem_cons, ih, hrc.1]

theorem forall₂_filter_map_eq {fr : List RawTransaction} {cl : List CleanTransaction}
    (h : List.Forall₂ normRel fr cl) (p : String) :
    (fr.filter (fun r => r.product_id = some p)).map rawAmountQ
      = (cl.filter (fun c => c.product_id = p)).map (fun c => c.amount) := by
  induction h with
  | nil => simp
  | @cons r c fr' cl' hrc hrest ih =>
    simp only [List.filter_cons]
    by_cases hp : c.product_id = p
    · have hrp : r.product_id = some p := by rw [hrc.1, hp]
      simp [hp, hrp, rawAmountQ, hrc.2, ih]
    · have hrp : ¬ r.product_id = some p := by rw [hrc.1]; simp [hp]
      simp [hp, hrp, ih]

theorem forall₂_amount_pos {fr : List RawTransaction} {cl : List CleanTransaction}
    (h : List.Forall₂ normRel fr cl)
    (hall : ∀ r ∈ fr, keepAmount r = true) : ∀ c ∈ cl, 0 < c.amount := by
  induction h with
  | nil => simp
  | @cons r c fr' cl' hrc hrest ih =>
    intro c' hc'
    rcases List.mem_cons.mp hc' with h1 | h1
    · subst h1
      have hk := hall r (by simp)
      rw [keepAmount, hrc.2] at hk
      simpa using hk
    · exact ih (fun x hx => hall x (List.mem_cons_of_mem _ hx)) c' h1

theorem totalFor_pos {cl : List CleanTransaction} {p : String}
    (hpos : ∀ c ∈ cl, 0 < c.amount)
    (hp : p ∈ cl.map (fun c => c.product_id)) : 0 < totalFor cl p := by
  rw [totalFor, qsum_eq]
  obtain ⟨c, hc, hcp⟩ := List.mem_map.mp hp
  apply List.sum_pos
  · intro x hx
    obtain ⟨c', hc', rfl⟩ := List.mem_map.mp hx
    exact hpos c' (List.mem_filter.mp hc').1
  · have hcf : c ∈ cl.filter (fun c => c.product_id = p) :=
      List.mem_filter.mpr ⟨hc, by simp [hcp]⟩
    exact List.ne_nil_of_mem (List.mem_map_of_mem _ hcf)

/-- C1: for every input and every product id appearing among the filtered
(complete, strictly positive amount) records, the transform's output row
for that product carries exactly the arithmetic sum of the amounts of the
filtered records with that product id. -/
theorem total_revenue_eq_sum_of_filtered (now : Nat) (df fr : List RawTransaction)
    (out : List ProductRevenueSummary) (p : String)
    (hfr : signFilter (dropna df) = .ok fr)
    (hout : transform_data now df = .ok out)
    (hp : some p ∈ fr.map (fun r => r.product_id)) :
    ∃ row ∈ out, row.product_id = p ∧
      row.total_revenue_usd
        = ((fr.filter (fun r => r.product_id = some p)).map rawAmountQ).sum := by
  obtain ⟨fr', cl, hfr', hcl, hagg⟩ := transform_ok hout
  rw [hfr] at hfr'
  have hfq : fr' = fr := (Except.ok.inj hfr').symm
  subst hfq
  subst hagg
  have hF := normalizeAll_ok hcl
  have hmem : p ∈ cl.map (fun c => c.product_id) := (forall₂_pid_mem hF p).mp hp
  refine ⟨⟨p, totalFor cl p, now⟩, ?_, rfl, ?_⟩
  · rw [aggregate]
    exact List.mem_map_of_mem _ (mem_sortedKeys.mpr hmem)
  · show totalFor cl p = _
    rw [totalFor, qsum_eq, forall₂_filter_map_eq hF p]

/-- Witness for C1: the mock data evaluated at product P101. -/
theorem total_revenue_eq_sum_of_filtered_witness :
    ∃ row ∈ mockSummary, row.product_id = "P101" ∧
      row.total_revenue_usd
        = ((mockFiltered.filter (fun r => r.product_id = some "P101")).map
            rawAmountQ).sum :=
  total_revenue_eq_sum_of_filtered 0 mockData mockFiltered mockSummary "P101"
    (by decide) (by decide) (by decide)

/-- C2: the output's product ids are exactly the distinct product ids of
the filtered records — no duplicates, no omissions, no extras, and no
product with a zero (or negative) revenue entry. -/
theorem summary_products_complete (now : Nat) (df fr : List RawTransaction)
    (out : List ProductRevenueSummary)
    (hfr : signFilter (dropna df) = .ok fr)
    (hout : transform_data now df = .ok out) :
    (out.map (fun row => row.product_id)).Nodup ∧
    (∀ p, p ∈ out.map (fun row => row.product_id) ↔
      some p ∈ fr.map (fun r => r.product_id)) ∧
    (∀ row ∈ out, 0 < row.total_revenue_usd) := by
  obtain ⟨fr', cl, hfr', hcl, hagg⟩ := transform_ok hout
  rw [hfr] at hfr'
  have hfq : fr' = fr := (Except.ok.inj hfr').symm
  rw [hfq] at hcl
  subst hagg
  have hF := normalizeAll_ok hcl
  have hall : ∀ r ∈ fr, keepAmount r = true := by
    intro r hr
    rw [signFilter_ok hfr] at hr
    exact List.of_mem_filter hr
  refine ⟨?_, ?_, ?_⟩
  · rw [aggregate_keys]
    exact sortedKeys_nodup cl
  · intro p
    rw [aggregate_keys, mem_sortedKeys, forall₂_pid_mem hF p]
  · intro row hrow
    rw [aggregate] at hrow
    obtain ⟨p, hpkeys, hrw⟩ := List.mem_map.mp hrow
    rw [← hrw]
    exact totalFor_pos (forall₂_amount_pos hF hall) (mem_sortedKeys.mp hpkeys)

/-- Witness for C2: the mock data. -/
theorem summary_products_complete_witness :
    (mockSummary.map (fun row => row.product_id)).Nodup ∧
    (∀ p, p ∈ mockSummary.map (fun row => row.product_id) ↔
      some p ∈ mockFiltered.map (fun r => r.product_id)) ∧
    (∀ row ∈ mockSummary, 0 < row.total_revenue_usd) :=
  summary_products_complete 0 mockData mockFiltered mockSummary
    (by decide) (by decide)

/-- Counterexample to C3 as stated: a record with a positive amount but a
missing `category` is dropped by the code's first filter step
(`df.dropna()` drops on ANY missing field), while the claim says records
with nulls only in non-amount fields are kept. -/
theorem null_filter_not_amount_only : ¬ nullFilterByAmountOnly := by
  intro h
  exact absurd (h [nullCategoryRow]) (by decide)

/-- C3 (amended): the first filter step drops exactly the records with a
missing value in ANY field; the survivor count equals the input count
minus the any-field-null drops minus the non-positive-amount drops. -/
theorem dropna_any_null_and_counts (df fr : List RawTransaction)
    (hfr : signFilter (dropna df) = .ok fr) :
    dropna df = df.filter rowComplete ∧
    fr = (dropna df).filter keepAmount ∧
    fr.length + ((dropna df).countP (fun r => !keepAmount r))
      + (df.countP (fun r => !rowComplete r)) = df.length := by
  refine ⟨rfl, signFilter_ok hfr, ?_⟩
  have h1 : fr.length = (dropna df).countP keepAmount := by
    rw [signFilter_ok hfr]
    exact (List.countP_eq_length_filter _ _).symm
  have h2 : (dropna df).length = df.countP rowComplete := by
    rw [dropna]
    exact (List.countP_eq_length_filter _ _).symm
  have hsplit1 : (dropna df).length = (dropna df).countP keepAmount
      + (dropna df).countP (fun r => !keepAmount r) := by
    simpa using List.length_eq_countP_add_countP keepAmount (dropna df)
  have hsplit2 : df.length = df.countP rowComplete
      + df.countP (fun r => !rowComplete r) := by
    simpa using List.length_eq_countP_add_countP rowComplete df
  omega

/-- Witness for the amended C3: the mock data (1 null drop, 1 sign drop). -/
theorem dropna_any_null_and_counts_witness :
    dropna mockData = mockData.filter rowComplete ∧
    mockFiltered = (dropna mockData).filter keepAmount ∧
    mockFiltered.length + ((dropna mockData).countP (fun r => !keepAmount r))
      + (mockData.countP (fun r => !rowComplete r)) = mockData.length :=
  dropna_any_null_and_counts mockData mockFiltered (by decide)

theorem signFilter_all_invalid {l : List RawTransaction}
    (h : ∀ r ∈ l, r.amount = none ∨ ∃ q, r.amount = some (Cell.num q) ∧ q ≤ 0) :
    signFilter l = .ok [] := by
  induction l with
  | nil => rfl
  | cons r rs ih =>
    have ht := ih (fun x hx => h x (List.mem_cons_of_mem _ hx))
    rcases h r (by simp) with hr | ⟨q, hq, hq0⟩
    · rw [signFilter, hr, ht]
    · rw [signFilter, hq, ht]
      simp [if_neg (not_lt.mpr hq0)]

/-- C4: the extractor distinguishes a missing path from any other
read/parse failure, reports both to the caller (who halts the pipeline
before transform and load), and on success returns all rows in file
order. -/
theorem extract_contract :
    (∀ rows, extract_data (.readable rows) = .ok rows) ∧
    extract_data .absent = .notFound ∧
    extract_data .unreadable = .extractionError ∧
    (∀ (now : Nat) (fs : FileState) (table : Option (List ProductRevenueSummary))
      (f : StoreFaults),
      (extract_data (afterMockGen fs)).isNone = true →
      (mainRun now fs table f).transformRan = false ∧
      (mainRun now fs table f).loadRan = false ∧
      (mainRun now fs table f).printedComplete = false) := by
  refine ⟨fun rows => rfl, rfl, rfl, ?_⟩
  intro now fs table f h
  rcases fs with _ | _ | rows
  · simp [afterMockGen, extract_data, ExtractResult.isNone] at h
  · exact ⟨rfl, rfl, rfl⟩
  · simp [afterMockGen, extract_data, ExtractResult.isNone] at h

/-- Witness for C4: an unreadable file halts the run before transform. -/
theorem extract_contract_witness :
    (mainRun 0 .unreadable none noFaults).transformRan = false ∧
    (mainRun 0 .unreadable none noFaults).loadRan = false ∧
    (mainRun 0 .unreadable none noFaults).printedComplete = false :=
  extract_contract.2.2.2 0 .unreadable none noFaults rfl

/-- Counterexample to C5 as stated: with a failing insert, the run still
prints the completion message — `load_data` swallows the exception
(lines 88-89) and `main` goes on to line 109 as if the load succeeded. -/
theorem load_failure_not_terminal : ¬ loadFailureTerminal := by
  intro h
  have hc := h 0 (.readable mockData) none ⟨false, false, true, false⟩ (by decide)
  exact absurd hc (by decide)

/-- C5 (amended): a failed load prints its error (surfacing the failure to
the operator) but `load_data` returns normally and `main` prints the
completion message regardless — the failure is not terminal.  Nor is the
write atomic: only a connect failure leaves the table in its prior state;
a failure at the create step leaves the table absent and a failure at the
insert step leaves it empty, destroying the prior contents either way. -/
theorem load_failure_behavior (now : Nat) (rows0 : List RawTransaction)
    (summary : List ProductRevenueSummary)
    (table : Option (List ProductRevenueSummary)) (f : StoreFaults)
    (htr : transform_data now rows0 = .ok summary) :
    (f.connectFails = true →
      (load_data summary table f).table = table ∧
      (load_data summary table f).errorPrinted = true) ∧
    (f.connectFails = false → f.createFails = true →
      (load_data summary table f).table = none ∧
      (load_data summary table f).errorPrinted = true) ∧
    (f.connectFails = false → f.createFails = false → f.insertFails = true →
      (load_data summary table f).table = some [] ∧
      (load_data summary table f).errorPrinted = true) ∧
    (mainRun now (.readable rows0) table f).printedComplete = true ∧
    (mainRun now (.readable rows0) table f).loadErrorPrinted
      = (load_data summary table f).errorPrinted := by
  have hmain : mainRun now (.readable rows0) table f =
      ⟨true, true, true, false, (load_data summary table f).errorPrinted,
        (load_data summary table f).table⟩ := by
    simp [mainRun, afterMockGen, extract_data, htr]
  refine ⟨?_, ?_, ?_, by rw [hmain], by rw [hmain]⟩
  · intro hcf
    rcases f with ⟨cf, crf, inf, vf⟩
    subst hcf
    exact ⟨rfl, rfl⟩
  · intro hcf hcrf
    rcases f with ⟨cf, crf, inf, vf⟩
    subst hcf
    subst hcrf
    exact ⟨rfl, rfl⟩
  · intro hcf hcrf hinf
    rcases f with ⟨cf, crf, inf, vf⟩
    subst hcf
    subst hcrf
    subst hinf
    exact ⟨rfl, rfl⟩

/-- Witness for the amended C5: the mock run with a failing insert wipes a
previously populated table and still ends in the completion message. -/
theorem load_failure_behavior_witness :
    ((⟨false, false, true, false⟩ : StoreFaults).connectFails = true →
      (load_data mockSummary (some demoSummary) ⟨false, false, true, false⟩).table
        = some demoSummary ∧
      (load_data mockSummary (some demoSummary) ⟨false, false, true, false⟩).errorPrinted
        = true) ∧
    ((⟨false, false, true, false⟩ : StoreFaults).connectFails = false →
      (⟨false, false, true, false⟩ : StoreFaults).createFails = true →
      (load_data mockSummary (some demoSummary) ⟨false, false, true, false⟩).table
        = none ∧
      (load_data mockSummary (some demoSummary) ⟨false, false, true, false⟩).errorPrinted
        = true) ∧
    ((⟨false, false, true, false⟩ : StoreFaults).connectFails = false →
      (⟨false, false, true, false⟩ : StoreFaults).createFails = false →
      (⟨false, false, true, false⟩ : StoreFaults).insertFails = true →
      (load_data mockSummary (some demoSummary) ⟨false, false, true, false⟩).table
        = some [] ∧
      (load_data mockSummary (some demoSummary) ⟨false, false, true, false⟩).errorPrinted
        = true) ∧
    (mainRun 0 (.readable mockData) (some demoSummary)
        ⟨false, false, true, false⟩).printedComplete = true ∧
    (mainRun 0 (.readable mockData) (some demoSummary)
        ⟨false, false, true, false⟩).loadErrorPrinted
      = (load_data mockSummary (some demoSummary)
          ⟨false, false, true, false⟩).errorPrinted :=
  load_failure_behavior 0 mockData mockSummary (some demoSummary)
    ⟨false, false, true, false⟩ (by decide)

/-- Counterexample to C6 as stated: a complete record with the non-numeric
amount "abc" makes the transform fail at the sign-filter comparison
(TypeError at line 48), not with the coercion error of the
type-normalization step. -/
theorem nonnumeric_not_coercion_error : ¬ coercionFailureAtNormalization := by
  intro h
  have hc := h 0 [strAmountRow] ⟨strAmountRow, by decide, "abc", rfl⟩
  exact absurd hc (by decide)

/-- C6 (amended): a non-null, non-numeric amount that survives the null
filter makes the transform fail at the sign-filter comparison (TypeError),
before type normalization; the normalization step itself never drops
records. -/
theorem nonnumeric_fails_at_sign_filter :
    (∀ (now : Nat) (df : List RawTransaction),
      (∃ r ∈ dropna df, ∃ s, r.amount = some (Cell.str s)) →
      transform_data now df = .error .typeError) ∧
    (∀ (fr : List RawTransaction) (cl : List CleanTransaction),
      normalizeAll fr = .ok cl → cl.length = fr.length) := by
  constructor
  · intro now df h
    rw [transform_data, signFilter_str_error h]
  · intro fr cl h
    exact (List.Forall₂.length_eq (normalizeAll_ok h)).symm

/-- Witness for the amended C6. -/
theorem nonnumeric_fails_at_sign_filter_witness :
    transform_data 0 [strAmountRow] = .error .typeError ∧
    ([] : List CleanTransaction).length = ([] : List RawTransaction).length :=
  ⟨nonnumeric_fails_at_sign_filter.1 0 [strAmountRow]
      ⟨strAmountRow, by decide, "abc", rfl⟩,
   nonnumeric_fails_at_sign_filter.2 [] [] rfl⟩

/-- C7: loading is idempotent — a second load of the same summary leaves
the table exactly as one load does, and the written table holds exactly
the given rows regardless of the prior contents (full replace, not
append). -/
theorem load_replace_idempotent (rows : List ProductRevenueSummary)
    (table : Option (List ProductRevenueSummary)) :
    (load_data rows (load_data rows table noFaults).table noFaults).table
      = (load_data rows table noFaults).table ∧
    (load_data rows table noFaults).table = some rows :=
  ⟨rfl, rfl⟩

/-- C8: an input whose records all have a missing or non-positive amount
transforms to the empty summary, with no error. -/
theorem all_invalid_yields_empty (now : Nat) (df : List RawTransaction)
    (h : ∀ r ∈ df, r.amount = none ∨ ∃ q, r.amount = some (Cell.num q) ∧ q ≤ 0) :
    transform_data now df = .ok [] := by
  have hsf : signFilter (dropna df) = .ok [] :=
    signFilter_all_invalid (fun r hr => h r (List.mem_of_mem_filter hr))
  rw [transform_data, hsf]
  rfl

/-- Witness for C8: a null, a negative and a zero amount. -/
theorem all_invalid_yields_empty_witness :
    transform_data 0 allInvalidData = .ok [] :=
  all_invalid_yields_empty 0 allInvalidData (by
    intro r hr
    simp only [allInvalidData, List.mem_cons, List.not_mem_nil, or_false] at hr
    rcases hr with rfl | rfl | rfl
    · exact Or.inl rfl
    · exact Or.inr ⟨Rat.divInt (-3) 1, rfl, by decide⟩
    · exact Or.inr ⟨0, rfl, by decide⟩)

/-- C9 (code bug): when the write raises after the connection is opened,
`load_data` returns with the connection still open — `conn.close()` is
only reached on the success path; on the fault-free path it is closed. -/
theorem conn_left_open_on_failure :
    (load_data demoSummary (some []) ⟨false, false, true, false⟩).connOpened = true ∧
    (load_data demoSummary (some []) ⟨false, false, true, false⟩).connClosed = false ∧
    (load_data demoSummary (some []) noFaults).connClosed = true :=
  ⟨rfl, rfl, rfl⟩

/-- C10: the transform's output rows are sorted by strictly ascending
lexicographic (codepoint) order of product id — the order `groupby` with
its default `sort=True` produces — hence deterministic for a given input
and independent of first-appearance order. -/
theorem output_sorted_by_product_id (now : Nat) (df : List RawTransaction)
    (out : List ProductRevenueSummary)
    (hout : transform_data now df = .ok out) :
    List.Pairwise (fun a b : ProductRevenueSummary =>
      a.product_id.data < b.product_id.data) out := by
  obtain ⟨fr, cl, hfr, hcl, hagg⟩ := transform_ok hout
  subst hagg
  have hinj : ∀ a b : String, a.data = b.data → a = b := by
    intro a b hd
    cases a
    cases b
    exact congrArg String.mk hd
  have hstrict : List.Pairwise (fun a b : String => a.data < b.data) (sortedKeys cl) := by
    refine ((sortedKeys_sorted cl).and (sortedKeys_nodup cl)).imp ?_
    intro a b hab
    exact lt_of_le_of_ne hab.1 (fun hd => hab.2 (hinj a b hd))
  rw [aggregate, List.pairwise_map]
  exact hstrict

/-- Witness for C10: products arriving in descending order come out in
ascending order. -/
theorem output_sorted_by_product_id_witness :
    List.Pairwise (fun a b : ProductRevenueSummary =>
      a.product_id.data < b.product_id.data)
      [⟨"P1", 3, 0⟩, ⟨"P2", 7, 0⟩] :=
  output_sorted_by_product_id 0 descOrderData [⟨"P1", 3, 0⟩, ⟨"P2", 7, 0⟩]
    (by decide)

end ETL
